import Mathlib

/-!
# Verification of the Klio pipeline-assembly topology

Shallow embedding of `src/exec/src/klio_exec/commands/run.py`
(`KlioPipeline`): the routing / merge / acknowledgment topology that
decides, for every element entering the pipeline, whether it is handed to
the business transform, passed straight through to the sink, or dropped,
and how acknowledgment of the original input message is coordinated.

PCollections are embedded as `List KlioMessage`; an optional PCollection
(Python `None`) as `Option (List KlioMessage)`.  The side-effecting
branches of the Beam graph (acknowledgment `ParDo`s, `KlioDrop`) are made
explicit: each assembly function additionally returns the list of message
ids acknowledged on its branches and the list of elements dropped.
Fatal assembly errors (`SystemExit` on unsupported configuration,
`beam.Flatten` applied to a tuple containing `None`) are embedded as
`Except.error`.

The leaf transforms (`klio.transforms.helpers`) are code of this
repository that is not under `src/`; they are modelled from the spec
(sections 4.1-4.6), each with a doc comment saying so.

A second, structural embedding (`Graph` suffix `_g`) mirrors the same
assembly code but records only the dataflow graph it wires: one node per
applied transform, with its parent nodes.  It is used for the temporal
claims (ordering between acknowledgment, drop and sink-write stages),
since in a dataflow topology the only execution-order guarantee between
stages is dataflow dependency (ancestry in the graph).
-/

/-- Protocol version tag of a message (`_KlioTagMessageVersion` tags each
message `v1` or `v2`). -/
inductive MsgVersion where
  | v1
  | v2
deriving DecidableEq, Repr

/-- The unit flowing through the topology (spec section 3, "Element"):
an opaque payload reference (`msgId` doubles as the linkage to the
original input message), a protocol version tag, the per-version
recipient-predicate outcome, ping mode, the two backing-store existence
facts the gates query, and the append-only audit trail. -/
structure KlioMessage where
  msgId : Nat
  version : MsgVersion
  intendedRecipient : Bool
  ping : Bool
  inputExists : Bool
  outputExists : Bool
  auditLog : List String
deriving DecidableEq, Repr

/-- A data input/output configuration (`job_config.data.inputs[i]` /
`.outputs[i]`): only the existence-check switch matters to the topology. -/
structure DataConf where
  skip_klio_existence_check : Bool
deriving DecidableEq, Repr

/-- An event input configuration (`job_config.events.inputs[i]`): its
connector name, the skip-read switch, and the stream of elements its
connector yields when read. -/
structure EventInputConf where
  name : String
  skip_klio_read : Bool
  elements : List KlioMessage
deriving DecidableEq, Repr

/-- An event output configuration (`job_config.events.outputs[i]`). -/
structure EventOutputConf where
  name : String
  skip_klio_write : Bool
deriving DecidableEq, Repr

/-- The slice of `KlioConfig` that `KlioPipeline`'s assembly code reads:
the runner (compared against the literal `"DirectGKERunner"` in the
source), the job name (recorded in audit-log hops), the run-wide force
flag, and the declared event/data inputs and outputs. -/
structure KlioConfig where
  runner : String
  jobName : String
  force : Bool
  eventInputs : List EventInputConf
  eventOutputs : List EventOutputConf
  dataInputs : List DataConf
  dataOutputs : List DataConf
deriving DecidableEq, Repr

/-- `KlioPipeline._has_event_inputs`. -/
def has_event_inputs (cfg : KlioConfig) : Bool :=
  cfg.eventInputs.length > 0

/-- `KlioPipeline._has_multi_event_inputs`. -/
def has_multi_event_inputs (cfg : KlioConfig) : Bool :=
  cfg.eventInputs.length > 1

/-- `KlioPipeline._has_event_outputs`. -/
def has_event_outputs (cfg : KlioConfig) : Bool :=
  cfg.eventOutputs.length > 0

/-- `KlioPipeline._has_data_inputs`. -/
def has_data_inputs (cfg : KlioConfig) : Bool :=
  cfg.dataInputs.length > 0

/-- `KlioPipeline._has_multi_data_inputs`. -/
def has_multi_data_inputs (cfg : KlioConfig) : Bool :=
  cfg.dataInputs.length > 1

/-- `KlioPipeline._has_data_outputs`. -/
def has_data_outputs (cfg : KlioConfig) : Bool :=
  cfg.dataOutputs.length > 0

/-- `KlioPipeline._has_multi_data_outputs`. -/
def has_multi_data_outputs (cfg : KlioConfig) : Bool :=
  cfg.dataOutputs.length > 1

/-- Outcome of a two-way tagged split (a transform with tagged outputs
`process` / `pass_thru`). -/
structure PingSplit where
  process : List KlioMessage
  pass_thru : List KlioMessage
deriving DecidableEq, Repr

/-- Modelled from the spec: `helpers.KlioFilterPing`
(`klio.transforms.helpers`, not under `src/`).  Ping-mode elements are
routed around the business transform directly to the output merge point
(glossary, "Pass-through"); non-ping elements continue to the gates. -/
def KlioFilterPing (l : List KlioMessage) : PingSplit :=
  { process := l.filter (fun e => !e.ping),
    pass_thru := l.filter (fun e => e.ping) }

/-- Outcome of an existence gate (tagged outputs `found` / `not_found`). -/
structure ExistsSplit where
  found : List KlioMessage
  not_found : List KlioMessage
deriving DecidableEq, Repr

/-- Modelled from the spec (4.3): `helpers.KlioGcsCheckOutputExists`
(`klio.transforms.helpers`, not under `src/`).  Pure read against the
sink's backing store: elements whose output already exists go to `found`,
others to `not_found`. -/
def KlioGcsCheckOutputExists (l : List KlioMessage) : ExistsSplit :=
  { found := l.filter (fun e => e.outputExists),
    not_found := l.filter (fun e => !e.outputExists) }

/-- Modelled from the spec (4.5): `helpers.KlioGcsCheckInputExists`
(`klio.transforms.helpers`, not under `src/`).  Pure read against the
source's backing store: elements whose required input data is present go
to `found`, others to `not_found`. -/
def KlioGcsCheckInputExists (l : List KlioMessage) : ExistsSplit :=
  { found := l.filter (fun e => e.inputExists),
    not_found := l.filter (fun e => !e.inputExists) }

/-- Modelled from the spec (4.4): `helpers.KlioFilterForce`
(`klio.transforms.helpers`, not under `src/`).  Re-splits the `found`
branch on the run-wide force flag: force set sends every element to
`process` (reprocess despite existing output), force unset sends every
element to `pass_thru`. -/
def KlioFilterForce (force : Bool) (l : List KlioMessage) : PingSplit :=
  if force then { process := l, pass_thru := [] }
  else { process := [], pass_thru := l }

/-- Outcome of `_KlioTagMessageVersion` (tagged outputs `v1` / `v2`). -/
structure VersionSplit where
  v1 : List KlioMessage
  v2 : List KlioMessage
deriving DecidableEq, Repr

/-- Modelled from the spec (4.1): `helpers._KlioTagMessageVersion`
(`klio.transforms.helpers`, not under `src/`).  Tags each element with a
protocol version inferred from payload shape. -/
def KlioTagMessageVersion (l : List KlioMessage) : VersionSplit :=
  { v1 := l.filter (fun e => e.version == MsgVersion.v1),
    v2 := l.filter (fun e => e.version == MsgVersion.v2) }

/-- Outcome of a recipient check (tagged outputs `process` / `drop`). -/
structure RecipientSplit where
  process : List KlioMessage
  drop : List KlioMessage
deriving DecidableEq, Repr

/-- Modelled from the spec (4.1): `helpers._KlioV1CheckRecipients`
(`klio.transforms.helpers`, not under `src/`).  The legacy (v1)
recipient predicate, kept pluggable per the spec; its outcome is the
element's `intendedRecipient` field. -/
def KlioV1CheckRecipients (l : List KlioMessage) : RecipientSplit :=
  { process := l.filter (fun e => e.intendedRecipient),
    drop := l.filter (fun e => !e.intendedRecipient) }

/-- Modelled from the spec (4.1): `helpers.KlioCheckRecipients`
(`klio.transforms.helpers`, not under `src/`).  The v2 recipient
predicate: does the job appear among the element's intended recipients. -/
def KlioCheckRecipients (l : List KlioMessage) : RecipientSplit :=
  { process := l.filter (fun e => e.intendedRecipient),
    drop := l.filter (fun e => !e.intendedRecipient) }

/-- Modelled from the spec (4.2, section 6 "Audit trail format"):
`helpers.KlioUpdateAuditLog` (`klio.transforms.helpers`, not under
`src/`).  Appends one processing-hop record (job identity) to each
element's audit trail; pure, no branching, no drops. -/
def KlioUpdateAuditLog (jobName : String) (l : List KlioMessage) :
    List KlioMessage :=
  l.map (fun e => { e with auditLog := e.auditLog ++ [jobName] })

/-- The error raised by the underlying engine when `beam.Flatten` is
applied to a tuple containing Python `None`. -/
def flattenNoneErrorMsg : String :=
  "TypeError: cannot Flatten a tuple containing None"

/-- `beam.Flatten` applied to the tuple `(pass_thru, ...)` whose first
component may be Python `None` (`_setup_data_io_filters`, line 392): a
tuple containing `None` is not a valid `PCollection` tuple, so the
underlying engine rejects the topology at assembly time. -/
def flattenWithOpt (a : Option (List KlioMessage)) (b : List KlioMessage) :
    Except String (List KlioMessage) :=
  match a with
  | none => Except.error flattenNoneErrorMsg
  | some l => Except.ok (l ++ b)

/-- The message of the `SystemExit` raised on multiple data inputs or
outputs (`_setup_data_io_filters`, lines 356-360). -/
def multiDataErrorMsg : String :=
  "Klio does not (yet) support multiple data inputs and outputs."

/-- Result of `_setup_data_io_filters`: the `to_process` stream handed on
toward the business transform, the optional `to_pass_thru` stream, plus
the explicit effects of its terminal branches: message ids acknowledged
(ack of not-found-input drops under `DirectGKERunner`) and elements
dropped (`KlioDrop` of the input-existence gate's `not_found` branch). -/
structure DataIOResult where
  to_process : List KlioMessage
  to_pass_thru : Option (List KlioMessage)
  acks : List Nat
  dropped : List KlioMessage
deriving DecidableEq, Repr

/-- `KlioPipeline._setup_data_io_filters` (run.py lines 353-432): raises
on multiple data inputs/outputs; applies the ping filter when a data
input is configured; applies the output-existence gate and the force
gate when the data output's existence check is enabled, merging the ping
pass-through with the force pass-through (a merge that fails when the
ping pass-through is absent); applies the input-existence gate when the
data input's existence check is enabled, acknowledging (under
`DirectGKERunner`) and dropping its `not_found` branch. -/
def setup_data_io_filters (cfg : KlioConfig) (in_pcol : List KlioMessage) :
    Except String DataIOResult :=
  if has_multi_data_inputs cfg || has_multi_data_outputs cfg then
    Except.error multiDataErrorMsg
  else
    let data_in_config := cfg.dataInputs.head?
    let data_out_config := cfg.dataOutputs.head?
    let pingStep : List KlioMessage × Option (List KlioMessage) :=
      match data_in_config with
      | some _ =>
          let pings := KlioFilterPing in_pcol
          (pings.process, some pings.pass_thru)
      | none => (in_pcol, none)
    let to_process_output := pingStep.1
    let pass_thru := pingStep.2
    let outGateStep : Except String
        (List KlioMessage × Option (List KlioMessage)) :=
      match data_out_config with
      | some d_out =>
          if !d_out.skip_klio_existence_check then
            let output_exists := KlioGcsCheckOutputExists to_process_output
            let output_force := KlioFilterForce cfg.force output_exists.found
            match flattenWithOpt pass_thru output_force.pass_thru with
            | Except.error msg => Except.error msg
            | Except.ok to_pass_thru =>
                Except.ok
                  (output_exists.not_found ++ output_force.process,
                   some to_pass_thru)
          else Except.ok (to_process_output, pass_thru)
      | none => Except.ok (to_process_output, pass_thru)
    match outGateStep with
    | Except.error msg => Except.error msg
    | Except.ok (to_filter_input, to_pass_thru) =>
        match data_in_config with
        | some d_in =>
            if !d_in.skip_klio_existence_check then
              let input_exists := KlioGcsCheckInputExists to_filter_input
              let acks :=
                if cfg.runner == "DirectGKERunner" then
                  input_exists.not_found.map KlioMessage.msgId
                else []
              Except.ok
                ⟨input_exists.found, to_pass_thru, acks,
                 input_exists.not_found⟩
            else Except.ok ⟨to_filter_input, to_pass_thru, [], []⟩
        | none => Except.ok ⟨to_filter_input, to_pass_thru, [], []⟩

/-- Result of `_filter_intended_recipients`: the `to_process` stream of
intended messages, plus the explicit effects of its drop branch: message
ids acknowledged (under `DirectGKERunner`) and elements dropped
(`KlioDrop` of the merged drop branches). -/
structure RecipResult where
  to_process : List KlioMessage
  acks : List Nat
  dropped : List KlioMessage
deriving DecidableEq, Repr

/-- `KlioPipeline._filter_intended_recipients` (run.py lines 441-484):
tags message versions, checks recipients per version, merges the two
drop branches (acknowledging them under `DirectGKERunner`, then dropping
them), and merges the two process branches. -/
def filter_intended_recipients (cfg : KlioConfig)
    (in_pcol : List KlioMessage) : RecipResult :=
  let msg_version := KlioTagMessageVersion in_pcol
  let v1_to_process := KlioV1CheckRecipients msg_version.v1
  let v2_to_process := KlioCheckRecipients msg_version.v2
  let to_drop := v1_to_process.drop ++ v2_to_process.drop
  let acks :=
    if cfg.runner == "DirectGKERunner" then
      to_drop.map KlioMessage.msgId
    else []
  let to_process := v1_to_process.process ++ v2_to_process.process
  ⟨to_process, acks, to_drop⟩

/-- `KlioPipeline._update_audit_log` (run.py lines 434-439). -/
def update_audit_log (cfg : KlioConfig) (in_pcol : List KlioMessage) :
    List KlioMessage :=
  KlioUpdateAuditLog cfg.jobName in_pcol

/-- Result of `_generate_pcoll`: the `to_process` and optional
`to_pass_thru` streams, with the effects (acks, drops) of the chain's
terminal branches accumulated. -/
structure PCollResult where
  to_process : List KlioMessage
  to_pass_thru : Option (List KlioMessage)
  acks : List Nat
  dropped : List KlioMessage
deriving DecidableEq, Repr

/-- `KlioPipeline._generate_pcoll` (run.py lines 518-538): for a
skip-read input, returns the raw pipeline as `to_process` and no
pass-through; otherwise reads the event input and chains recipient
filter, audit-log append and the data existence gates. -/
def generate_pcoll (cfg : KlioConfig) (input_config : EventInputConf)
    (pipeline : List KlioMessage) : Except String PCollResult :=
  if input_config.skip_klio_read then
    Except.ok ⟨pipeline, none, [], []⟩
  else
    let in_pcol := input_config.elements
    let intended_msgs := filter_intended_recipients cfg in_pcol
    let audit_logged_msgs := update_audit_log cfg intended_msgs.to_process
    match setup_data_io_filters cfg audit_logged_msgs with
    | Except.error msg => Except.error msg
    | Except.ok dio =>
        Except.ok
          ⟨dio.to_process, dio.to_pass_thru,
           intended_msgs.acks ++ dio.acks,
           intended_msgs.dropped ++ dio.dropped⟩

/-- Python-dict insertion on an association list: overwriting an existing
key keeps its original position (`input_dict[name] = ev` in
`_generate_input_conf_names`). -/
def dictInsert (k : String) (v : EventInputConf) :
    List (String × EventInputConf) → List (String × EventInputConf)
  | [] => [(k, v)]
  | (k', v') :: rest =>
      if k' == k then (k', v) :: rest else (k', v') :: dictInsert k v rest

/-- `KlioPipeline._generate_input_conf_names` (run.py lines 488-494):
maps `"{name}{index}"` to each event input, in declaration order. -/
def generate_input_conf_names (cfg : KlioConfig) :
    List (String × EventInputConf) :=
  cfg.eventInputs.enum.foldl
    (fun input_dict p => dictInsert (p.2.name ++ toString p.1) p.2 input_dict)
    []

/-- Result of `_generate_pcoll_per_input`: the named-tuple structure
mapping each generated input name to its `to_process` stream, the merged
pass-through stream, and the accumulated effects. -/
structure MultiPCollResult where
  to_process : List (String × List KlioMessage)
  to_pass_thru : List KlioMessage
  acks : List Nat
  dropped : List KlioMessage
deriving DecidableEq, Repr

/-- The loop body of `_generate_pcoll_per_input` (run.py lines 501-515):
per named input, runs `_generate_pcoll`; collects the non-`None`
pass-throughs in iteration order (merged by `beam.Flatten`), and records
the input's `to_process` stream under its generated name. -/
def pcolls_per_input (cfg : KlioConfig) (pipeline : List KlioMessage) :
    List (String × EventInputConf) → Except String MultiPCollResult
  | [] => Except.ok ⟨[], [], [], []⟩
  | (input_name, input_conf) :: rest =>
      match generate_pcoll cfg input_conf pipeline with
      | Except.error msg => Except.error msg
      | Except.ok r =>
          match pcolls_per_input cfg pipeline rest with
          | Except.error msg => Except.error msg
          | Except.ok rs =>
              Except.ok
                ⟨(input_name, r.to_process) :: rs.to_process,
                 (match r.to_pass_thru with
                  | some l => l
                  | none => []) ++ rs.to_pass_thru,
                 r.acks ++ rs.acks,
                 r.dropped ++ rs.dropped⟩

/-- `KlioPipeline._generate_pcoll_per_input` (run.py lines 496-516). -/
def generate_pcoll_per_input (cfg : KlioConfig)
    (pipeline : List KlioMessage) : Except String MultiPCollResult :=
  pcolls_per_input cfg pipeline (generate_input_conf_names cfg)

/-- The aggregated process stream(s) handed to the business transform
(`run_callable(to_process, self.config)`): either a single stream (the
raw pipeline, or the one event input's `to_process`), or the
`MultiInputPCollTuple` of named per-input streams. -/
inductive ToProcess where
  | single (pcoll : List KlioMessage)
  | multi (pcolls : List (String × List KlioMessage))
deriving DecidableEq, Repr

/-- Result of `_setup_pipeline`: what was handed to the business
transform, the stream committed to the event output sink (empty when no
output is written), the message ids acknowledged across all branches (in
branch-assembly order), and the elements dropped. -/
structure PipelineResult where
  transform_input : ToProcess
  sink : List KlioMessage
  acks : List Nat
  dropped : List KlioMessage
deriving DecidableEq, Repr

/-- `KlioPipeline._setup_pipeline` (run.py lines 541-588): builds the
per-input chains (single- or multi-input), invokes the business
transform once on the aggregated `to_process`, under `DirectGKERunner`
acknowledges the merged (transform output, pass-through) stream, and,
when an event output is declared without skip-write, writes the merged
(transform output, pass-through) stream to the sink. -/
def setup_pipeline (cfg : KlioConfig)
    (run_callable : ToProcess → List KlioMessage)
    (pipeline : List KlioMessage) : Except String PipelineResult :=
  let pre : Except String
      (ToProcess × Option (List KlioMessage) × List Nat × List KlioMessage) :=
    if has_event_inputs cfg then
      if !has_multi_event_inputs cfg then
        match cfg.eventInputs.head? with
        | some input_config =>
            match generate_pcoll cfg input_config pipeline with
            | Except.error msg => Except.error msg
            | Except.ok r =>
                Except.ok
                  (ToProcess.single r.to_process, r.to_pass_thru,
                   r.acks, r.dropped)
        | none => Except.ok (ToProcess.single pipeline, none, [], [])
      else
        match generate_pcoll_per_input cfg pipeline with
        | Except.error msg => Except.error msg
        | Except.ok r =>
            Except.ok
              (ToProcess.multi r.to_process, some r.to_pass_thru,
               r.acks, r.dropped)
    else Except.ok (ToProcess.single pipeline, none, [], [])
  match pre with
  | Except.error msg => Except.error msg
  | Except.ok (to_process, to_pass_thru, acks0, dropped) =>
      let out_pcol := run_callable to_process
      let ackAcks :=
        if cfg.runner == "DirectGKERunner" then
          let to_ack_input :=
            match to_pass_thru with
            | some l => out_pcol ++ l
            | none => out_pcol
          to_ack_input.map KlioMessage.msgId
        else []
      let sink :=
        match cfg.eventOutputs.head? with
        | some output_config =>
            if !output_config.skip_klio_write then
              match to_pass_thru with
              | some l => out_pcol ++ l
              | none => out_pcol
            else []
        | none => []
      Except.ok ⟨to_process, sink, acks0 ++ ackAcks, dropped⟩

/-- A node of the assembled dataflow graph: the applied transform's label
and the ids of the nodes it consumes.  A splitting transform is one node;
all its tagged output branches carry its id. -/
structure GNode where
  label : String
  parents : List Nat
deriving DecidableEq, Repr

/-- The assembled dataflow graph: node `i` is the `i`-th entry. -/
abbrev Graph := List GNode

/-- Appends a node for an applied transform, returning its id. -/
def addNode (lbl : String) (parents : List Nat) (g : Graph) : Nat × Graph :=
  (g.length, g ++ [⟨lbl, parents⟩])

/-- The label-prefix convention of the assembly code:
`"[{label_prefix}] "` when a prefix is given, else empty. -/
def lblPfx ( label_prefix : Option String) : String :=
  match label_prefix with
  | some p => "[" ++ p ++ "] "
  | none => ""

/-- Parents of node `n` (no parents for an unknown id). -/
def parentsOf (g : Graph) (n : Nat) : List Nat :=
  match g[n]? with
  | some nd => nd.parents
  | none => []

/-- All ancestors of node `n` reachable within `fuel` steps. -/
def ancestorsFuel (g : Graph) : Nat → Nat → List Nat
  | 0, _ => []
  | fuel + 1, n =>
      let ps := parentsOf g n
      ps ++ ps.flatMap (ancestorsFuel g fuel)

/-- `a` is a (strict) ancestor of `b`: `b`'s stage consumes, directly or
transitively, `a`'s output.  In a dataflow topology this is the only
execution-order guarantee between stages: a stage runs after its
ancestors, and no order is guaranteed between non-ancestor stages. -/
def isAncestor (g : Graph) (a b : Nat) : Bool :=
  (ancestorsFuel g g.length b).contains a

/-- Index of the unique node carrying label `lbl`, if any. -/
def findNode (g : Graph) (lbl : String) : Option Nat :=
  g.findIdx? (fun nd => nd.label == lbl)

/-- Structural mirror of `_setup_data_io_filters` (run.py lines 353-432):
wires the same nodes the list-level `setup_data_io_filters` evaluates,
returning the ids of the `to_process` and optional `to_pass_thru`
streams. -/
def setup_data_io_filters_g (cfg : KlioConfig)
    ( label_prefix : Option String) (in_pcol : Nat) (g : Graph) :
    Except String ((Nat × Option Nat) × Graph) :=
  if has_multi_data_inputs cfg || has_multi_data_outputs cfg then
    Except.error multiDataErrorMsg
  else
    let data_in_config := cfg.dataInputs.head?
    let data_out_config := cfg.dataOutputs.head?
    let pfx := lblPfx label_prefix
    let pingStep : (Nat × Option Nat) × Graph :=
      match data_in_config with
      | some _ =>
          let (pings, g) := addNode (pfx ++ "Ping Filter") [in_pcol] g
          ((pings, some pings), g)
      | none => ((in_pcol, none), g)
    let to_process_output := pingStep.1.1
    let pass_thru := pingStep.1.2
    let g := pingStep.2
    let outGateStep : Except String ((Nat × Option Nat) × Graph) :=
      match data_out_config with
      | some d_out =>
          if !d_out.skip_klio_existence_check then
            let (output_exists, g) :=
              addNode (pfx ++ "Output Exists Filter") [to_process_output] g
            let (output_force, g) :=
              addNode (pfx ++ "Output Force Filter") [output_exists] g
            match pass_thru with
            | none => Except.error flattenNoneErrorMsg
            | some pt =>
                let (to_pass_thru, g) :=
                  addNode (pfx ++ "Flatten to Pass Thru")
                    [pt, output_force] g
                let (to_filter_input, g) :=
                  addNode (pfx ++ "Flatten to Process")
                    [output_exists, output_force] g
                Except.ok ((to_filter_input, some to_pass_thru), g)
          else Except.ok ((to_process_output, pass_thru), g)
      | none => Except.ok ((to_process_output, pass_thru), g)
    match outGateStep with
    | Except.error msg => Except.error msg
    | Except.ok ((to_filter_input, to_pass_thru), g) =>
        match data_in_config with
        | some d_in =>
            if !d_in.skip_klio_existence_check then
              let (input_exists, g) :=
                addNode (pfx ++ "Input Exists Filter") [to_filter_input] g
              let g :=
                if cfg.runner == "DirectGKERunner" then
                  (addNode
                    (pfx ++ "Ack Input Message from No Data Input Found")
                    [input_exists] g).2
                else g
              let g :=
                (addNode (pfx ++ "Drop Not Found Data") [input_exists] g).2
              Except.ok ((input_exists, to_pass_thru), g)
            else Except.ok ((to_filter_input, to_pass_thru), g)
        | none => Except.ok ((to_filter_input, to_pass_thru), g)

/-- Structural mirror of `_filter_intended_recipients` (run.py lines
441-484), returning the id of the merged `to_process` stream. -/
def filter_intended_recipients_g (cfg : KlioConfig)
    ( label_prefix : Option String) (in_pcol : Nat) (g : Graph) :
    Nat × Graph :=
  let pfx := lblPfx label_prefix
  let (msg_version, g) := addNode (pfx ++ "Tag Message Versions") [in_pcol] g
  let (v1_to_process, g) :=
    addNode (pfx ++ "Should Process v1 Message") [msg_version] g
  let (v2_to_process, g) :=
    addNode (pfx ++ "Should Process v2 Message") [msg_version] g
  let (to_drop, g) :=
    addNode (pfx ++ "Flatten to Drop Messages to Ignore")
      [v1_to_process, v2_to_process] g
  let g :=
    if cfg.runner == "DirectGKERunner" then
      (addNode (pfx ++ "Ack Dropped Input Message") [to_drop] g).2
    else g
  let g := (addNode (pfx ++ "Drop Messages to Ignore") [to_drop] g).2
  let (to_process, g) :=
    addNode (pfx ++ "Flatten to Process Intended Messages")
      [v1_to_process, v2_to_process] g
  (to_process, g)

/-- Structural mirror of `_update_audit_log` (run.py lines 434-439). -/
def update_audit_log_g ( label_prefix : Option String) (in_pcol : Nat)
    (g : Graph) : Nat × Graph :=
  let label :=
    match label_prefix with
    | some p => "[" ++ p ++ "] " ++ "Updating KlioMessage Audit Log"
    | none => "Updating KlioMessage Audit Log"
  addNode label [in_pcol] g

/-- Structural mirror of `_generate_pcoll` (run.py lines 518-538):
`pipeline` is the id of the root node standing for the raw engine
input. -/
def generate_pcoll_g (cfg : KlioConfig) (input_config : EventInputConf)
    ( label_prefix : Option String) (pipeline : Nat) (g : Graph) :
    Except String ((Nat × Option Nat) × Graph) :=
  if input_config.skip_klio_read then
    Except.ok ((pipeline, none), g)
  else
    let label :=
      match label_prefix with
      | some p => "[" ++ p ++ "] " ++ "Read Event Input"
      | none => "Read Event Input"
    let (in_pcol, g) := addNode label [pipeline] g
    let (intended_msgs, g) :=
      filter_intended_recipients_g cfg label_prefix in_pcol g
    let (audit_logged_msgs, g) :=
      update_audit_log_g label_prefix intended_msgs g
    setup_data_io_filters_g cfg label_prefix audit_logged_msgs g

/-- Structural mirror of the loop of `_generate_pcoll_per_input` (run.py
lines 501-510), returning the named `to_process` ids and the collected
non-`None` pass-through ids. -/
def pcolls_per_input_g (cfg : KlioConfig) (pipeline : Nat) :
    List (String × EventInputConf) → Graph →
    Except String ((List (String × Nat) × List Nat) × Graph)
  | [], g => Except.ok (([], []), g)
  | (input_name, input_conf) :: rest, g =>
      match generate_pcoll_g cfg input_conf (some input_name) pipeline g with
      | Except.error msg => Except.error msg
      | Except.ok ((input_to_process, input_to_pass_thru), g) =>
          match pcolls_per_input_g cfg pipeline rest g with
          | Except.error msg => Except.error msg
          | Except.ok ((names, passes), g) =>
              Except.ok
                (((input_name, input_to_process) :: names,
                  (match input_to_pass_thru with
                   | some p => [p]
                   | none => []) ++ passes), g)

/-- Structural mirror of `_generate_pcoll_per_input` (run.py lines
496-516). -/
def generate_pcoll_per_input_g (cfg : KlioConfig) (pipeline : Nat)
    (g : Graph) : Except String ((List (String × Nat) × Nat) × Graph) :=
  match pcolls_per_input_g cfg pipeline (generate_input_conf_names cfg) g with
  | Except.error msg => Except.error msg
  | Except.ok ((names, passes), g) =>
      let (to_pass_thru, g) :=
        addNode "Merge multi-input pass-thrus" passes g
      Except.ok ((names, to_pass_thru), g)

/-- Structural mirror of `_setup_pipeline` (run.py lines 541-588): node 0
is the raw pipeline; the business transform's output is the node labelled
`"run_callable"`; under `DirectGKERunner` the ack stage is the node
labelled `"Ack Input Messages"`; the sink write (the unlabelled
`transform_cls_out` application) is the node labelled
`"Write Event Output"`. -/
def setup_pipeline_g (cfg : KlioConfig) : Except String Graph :=
  let (pipeline, g0) := addNode "Pipeline" [] []
  let pre : Except String ((List Nat × Option Nat) × Graph) :=
    if has_event_inputs cfg then
      if !has_multi_event_inputs cfg then
        match cfg.eventInputs.head? with
        | some input_config =>
            match generate_pcoll_g cfg input_config none pipeline g0 with
            | Except.error msg => Except.error msg
            | Except.ok ((to_process, to_pass_thru), g) =>
                Except.ok (([to_process], to_pass_thru), g)
        | none => Except.ok (([pipeline], none), g0)
      else
        match generate_pcoll_per_input_g cfg pipeline g0 with
        | Except.error msg => Except.error msg
        | Except.ok ((names, to_pass_thru), g) =>
            Except.ok ((names.map Prod.snd, some to_pass_thru), g)
    else Except.ok (([pipeline], none), g0)
  match pre with
  | Except.error msg => Except.error msg
  | Except.ok ((to_process, to_pass_thru), g) =>
      let (out_pcol, g) := addNode "run_callable" to_process g
      let g :=
        if cfg.runner == "DirectGKERunner" then
          let (to_ack_input, g) :=
            match to_pass_thru with
            | some pt =>
                addNode "Flatten to Ack Input Messages" [out_pcol, pt] g
            | none => (out_pcol, g)
          (addNode "Ack Input Messages" [to_ack_input] g).2
        else g
      let g :=
        match cfg.eventOutputs.head? with
        | some output_config =>
            if !output_config.skip_klio_write then
              let (to_output, g) :=
                match to_pass_thru with
                | some pt =>
                    addNode "Flatten to Output" [out_pcol, pt] g
                | none => (out_pcol, g)
              (addNode "Write Event Output" [to_output] g).2
            else g
        | none => g
      Except.ok g

/-- An element-preserving business transform: emits every element of its
aggregated input stream(s) unchanged, exactly once.  The spec treats the
business transform as an opaque external callable; this is the canonical
instance used to close the topology when evaluating it end to end. -/
def identity_run_callable : ToProcess → List KlioMessage
  | ToProcess.single l => l
  | ToProcess.multi m => m.flatMap Prod.snd

/-- The fully wired single-input job configuration: `DirectGKERunner`
(the runner requiring manual acknowledgment), one event input read from
its connector, one event output written, one data input and one data
output with both existence checks enabled, and the given force flag and
input stream. -/
def fullCfg (force : Bool) (es : List KlioMessage) : KlioConfig :=
  { runner := "DirectGKERunner"
    jobName := "test-job"
    force := force
    eventInputs := [⟨"pubsub", false, es⟩]
    eventOutputs := [⟨"pubsub", false⟩]
    dataInputs := [⟨false⟩]
    dataOutputs := [⟨false⟩] }

/-- The audited form of an element: the element as it leaves the
audit-log appender (one hop record added by this job). -/
def audited (jobName : String) (e : KlioMessage) : KlioMessage :=
  { e with auditLog := e.auditLog ++ [jobName] }

/-- The pass-through contribution of one named event input to the merged
multi-input pass-through stream: its chain's `to_pass_thru` when present
(`if input_to_pass_thru:`), else nothing. -/
def input_pass_thru_contribution (cfg : KlioConfig)
    (pipeline : List KlioMessage) (p : String × EventInputConf) :
    List KlioMessage :=
  match generate_pcoll cfg p.2 pipeline with
  | Except.ok r =>
      match r.to_pass_thru with
      | some l => l
      | none => []
  | Except.error _ => []

/-- A concrete job configuration declaring two event inputs, named "a"
and "b", each yielding one element (the spec's two-source scenario). -/
def cfgTwoInputs : KlioConfig :=
  { runner := "DirectGKERunner"
    jobName := "test-job"
    force := false
    eventInputs :=
      [⟨"a", false, [⟨1, MsgVersion.v1, true, false, true, false, []⟩]⟩,
       ⟨"b", false, [⟨2, MsgVersion.v2, true, false, true, false, []⟩]⟩]
    eventOutputs := [⟨"pubsub", false⟩]
    dataInputs := [⟨false⟩]
    dataOutputs := [⟨false⟩] }

/-- C9: for every event input configured with skip-read, the assembler
hands the raw pipeline directly on as the to-process stream with no
pass-through stream, and the recipient router, the audit-log appender
and both existence gates are all skipped for that input: the result is
the untouched raw pipeline, with no acknowledgment and no drop issued,
whatever the configuration's gates and runner are. -/
theorem generate_pcoll_skip_read (cfg : KlioConfig)
    (input_config : EventInputConf) (pipeline : List KlioMessage)
    (h : input_config.skip_klio_read = true) :
    generate_pcoll cfg input_config pipeline =
      Except.ok ⟨pipeline, none, [], []⟩ := by
  simp [generate_pcoll, h]

/-- Witness for `generate_pcoll_skip_read` at a concrete skip-read
input. -/
theorem generate_pcoll_skip_read_witness :
    (⟨"pubsub", true, []⟩ : EventInputConf).skip_klio_read = true ∧
    generate_pcoll (fullCfg false []) ⟨"pubsub", true, []⟩
        [⟨1, MsgVersion.v1, true, false, true, true, []⟩] =
      Except.ok ⟨[⟨1, MsgVersion.v1, true, false, true, true, []⟩],
        none, [], []⟩ :=
  ⟨rfl, generate_pcoll_skip_read _ _ _ rfl⟩

/-- C8, counterexample: a job configuration declaring two data outputs
but whose only event input is configured with skip-read assembles
without any error — `_setup_data_io_filters`, the only place the
multiple-data-inputs/outputs check lives, is never reached, so no fatal
configuration error is raised for this configuration, contrary to the
claim's "for every job configuration". -/
theorem multi_data_outputs_no_error_when_skip_read :
    setup_pipeline
      { runner := "DirectGKERunner", jobName := "test-job", force := false,
        eventInputs := [⟨"pubsub", true, []⟩], eventOutputs := [],
        dataInputs := [], dataOutputs := [⟨false⟩, ⟨false⟩] }
      identity_run_callable [] =
      Except.ok ⟨ToProcess.single [], [], [], []⟩ := rfl

/-- C10, counterexample: a job configuration enabling the sink's
output-existence check and declaring no data input, but whose only event
input is configured with skip-read, assembles a valid pipeline —
`_setup_data_io_filters`, where the pass-through merge with the absent
ping pass-through would fail, is never reached, contrary to the claim's
"for every job configuration". -/
theorem out_check_no_data_input_assembles_when_no_read :
    setup_pipeline
      { runner := "DirectGKERunner", jobName := "test-job", force := false,
        eventInputs := [⟨"pubsub", true, []⟩], eventOutputs := [],
        dataInputs := [], dataOutputs := [⟨false⟩] }
      identity_run_callable [] =
      Except.ok ⟨ToProcess.single [], [], [], []⟩ := rfl

/-- C2, counterexample: in the topology assembled for the fully wired
`DirectGKERunner` configuration, the sink-write stage (node 22,
`"Write Event Output"`) is NOT an ancestor of the acknowledgment stage
(node 20, `"Ack Input Messages"`): the ack stage does not consume the
write's output, directly or transitively, so the topology provides no
write-then-ack ordering — the two are independent sibling branches, and
acknowledgment may be issued before or concurrently with the sink
write. -/
theorem ack_not_downstream_of_sink_write :
    ∃ g, setup_pipeline_g (fullCfg false []) = Except.ok g ∧
      findNode g "Write Event Output" = some 22 ∧
      findNode g "Ack Input Messages" = some 20 ∧
      isAncestor g 22 20 = false :=
  ⟨_, rfl, rfl, rfl, rfl⟩

/-- C2, amended: on `DirectGKERunner`, acknowledgment of sink-reaching
elements is issued by a stage that consumes the merged
(transform-output, pass-through) stream — the same pair of streams that
feeds the sink write — but on an independent sibling branch: the ack
stage is neither downstream nor upstream of the sink-write stage, so
elements are acknowledged once merged for writing, not after the write
is confirmed. -/
theorem ack_consumes_merged_write_stream :
    ∃ g, setup_pipeline_g (fullCfg false []) = Except.ok g ∧
      findNode g "run_callable" = some 18 ∧
      findNode g "Flatten to Pass Thru" = some 13 ∧
      findNode g "Flatten to Ack Input Messages" = some 19 ∧
      findNode g "Ack Input Messages" = some 20 ∧
      findNode g "Flatten to Output" = some 21 ∧
      findNode g "Write Event Output" = some 22 ∧
      parentsOf g 19 = [18, 13] ∧
      parentsOf g 20 = [19] ∧
      parentsOf g 21 = [18, 13] ∧
      parentsOf g 22 = [21] ∧
      isAncestor g 22 20 = false ∧
      isAncestor g 20 22 = false :=
  ⟨_, rfl, rfl, rfl, rfl, rfl, rfl, rfl, rfl, rfl, rfl, rfl, rfl, rfl⟩

/-- C5, counterexample: in the topology assembled for the fully wired
`DirectGKERunner` configuration, the acknowledgment stage for elements
failing the input-existence check (node 16,
`"Ack Input Message from No Data Input Found"`) is NOT an ancestor of
the drop stage (node 17, `"Drop Not Found Data"`): the drop does not
consume the ack's output, so the topology provides no
ack-before-drop-completes ordering — both are independent sibling
branches of the gate's `not_found` output. -/
theorem input_gate_ack_not_upstream_of_drop :
    ∃ g, setup_pipeline_g (fullCfg false []) = Except.ok g ∧
      findNode g "Ack Input Message from No Data Input Found" = some 16 ∧
      findNode g "Drop Not Found Data" = some 17 ∧
      findNode g "Input Exists Filter" = some 15 ∧
      isAncestor g 16 17 = false :=
  ⟨_, rfl, rfl, rfl, rfl, rfl⟩

/-- C1: in the fully wired `DirectGKERunner` topology (manual
acknowledgment required), with an element-preserving business transform,
every element entering the topology takes exactly one terminal path —
it is either written to the sink or dropped (the sink stream and the
drop stream together hold exactly one element for it, never both, never
neither) — and its original input message is acknowledged exactly once
across all acknowledgment branches. -/
theorem exactly_one_terminal_path_and_ack
    (f : ToProcess → List KlioMessage)
    (hf : ∀ l, f (ToProcess.single l) = l)
    (force : Bool) (e : KlioMessage) :
    ∃ r, setup_pipeline (fullCfg force [e]) f [] = Except.ok r ∧
      r.sink.length + r.dropped.length = 1 ∧
      r.acks = [e.msgId] := by
  obtain ⟨id, v, ir, p, ie, oe, log⟩ := e
  cases force <;> cases v <;> cases ir <;> cases p <;> cases ie <;>
      cases oe <;>
    refine ⟨_, rfl, ?_, ?_⟩ <;>
    simp [setup_pipeline, generate_pcoll, filter_intended_recipients,
      update_audit_log, setup_data_io_filters, KlioFilterPing,
      KlioGcsCheckOutputExists, KlioGcsCheckInputExists, KlioFilterForce,
      KlioTagMessageVersion, KlioV1CheckRecipients, KlioCheckRecipients,
      KlioUpdateAuditLog, flattenWithOpt, fullCfg, has_multi_data_inputs,
      has_multi_data_outputs, hf]

/-- Witness for `exactly_one_terminal_path_and_ack` with the identity
business transform and a concrete element. -/
theorem exactly_one_terminal_path_and_ack_witness :
    (∀ l, identity_run_callable (ToProcess.single l) = l) ∧
    ∃ r, setup_pipeline
        (fullCfg false [⟨3, MsgVersion.v2, true, false, true, false, []⟩])
        identity_run_callable [] = Except.ok r ∧
      r.sink.length + r.dropped.length = 1 ∧
      r.acks = [3] :=
  ⟨fun _ => rfl,
   exactly_one_terminal_path_and_ack identity_run_callable (fun _ => rfl)
     false ⟨3, MsgVersion.v2, true, false, true, false, []⟩⟩

/-- C3: in the fully wired topology with both existence checks enabled
and the force flag unset, an element whose output already exists (and
which is an intended, non-ping recipient) appears exactly once in the
final sink stream, unmodified apart from the audit-log hop appended to
every routed element, via the pass-through path; the business transform
receives zero elements, and the element is acknowledged exactly once. -/
theorem existing_output_no_force_pass_thru
    (f : ToProcess → List KlioMessage)
    (hf : f (ToProcess.single []) = [])
    (e : KlioMessage)
    (hir : e.intendedRecipient = true) (hp : e.ping = false)
    (hoe : e.outputExists = true) :
    setup_pipeline (fullCfg false [e]) f [] =
      Except.ok ⟨ToProcess.single [], [audited "test-job" e], [e.msgId],
        []⟩ := by
  obtain ⟨id, v, ir, p, ie, oe, log⟩ := e
  cases v <;> cases ir <;> cases p <;> cases ie <;> cases oe <;>
    simp_all [setup_pipeline, generate_pcoll, filter_intended_recipients,
      update_audit_log, setup_data_io_filters, KlioFilterPing,
      KlioGcsCheckOutputExists, KlioGcsCheckInputExists, KlioFilterForce,
      KlioTagMessageVersion, KlioV1CheckRecipients, KlioCheckRecipients,
      KlioUpdateAuditLog, flattenWithOpt, fullCfg, has_multi_data_inputs,
      has_multi_data_outputs, has_event_inputs, has_multi_event_inputs,
      audited]

/-- Witness for `existing_output_no_force_pass_thru` at a concrete
element with existing output. -/
theorem existing_output_no_force_pass_thru_witness :
    identity_run_callable (ToProcess.single []) = [] ∧
    (⟨5, MsgVersion.v1, true, false, true, true, []⟩ :
        KlioMessage).intendedRecipient = true ∧
    (⟨5, MsgVersion.v1, true, false, true, true, []⟩ :
        KlioMessage).ping = false ∧
    (⟨5, MsgVersion.v1, true, false, true, true, []⟩ :
        KlioMessage).outputExists = true ∧
    setup_pipeline
        (fullCfg false [⟨5, MsgVersion.v1, true, false, true, true, []⟩])
        identity_run_callable [] =
      Except.ok ⟨ToProcess.single [],
        [audited "test-job" ⟨5, MsgVersion.v1, true, false, true, true, []⟩],
        [5], []⟩ :=
  ⟨rfl, rfl, rfl, rfl,
   existing_output_no_force_pass_thru identity_run_callable rfl
     ⟨5, MsgVersion.v1, true, false, true, true, []⟩ rfl rfl rfl⟩

/-- C4: in the fully wired topology with both existence checks enabled
and the force flag set, an element whose output already exists (an
intended, non-ping recipient whose input also exists) is handed to the
business transform after passing the input-existence gate, and does not
additionally appear on the pass-through path: the sink stream is exactly
what the transform returns, with no pass-through duplicate, and the
acknowledgments are exactly those of the transform's output. -/
theorem existing_output_force_reprocessed
    (f : ToProcess → List KlioMessage)
    (e : KlioMessage)
    (hir : e.intendedRecipient = true) (hp : e.ping = false)
    (hoe : e.outputExists = true) (hie : e.inputExists = true) :
    setup_pipeline (fullCfg true [e]) f [] =
      Except.ok ⟨ToProcess.single [audited "test-job" e],
        f (ToProcess.single [audited "test-job" e]),
        (f (ToProcess.single [audited "test-job" e])).map
          KlioMessage.msgId,
        []⟩ := by
  obtain ⟨id, v, ir, p, ie, oe, log⟩ := e
  cases v <;> cases ir <;> cases p <;> cases ie <;> cases oe <;>
    simp_all [setup_pipeline, generate_pcoll, filter_intended_recipients,
      update_audit_log, setup_data_io_filters, KlioFilterPing,
      KlioGcsCheckOutputExists, KlioGcsCheckInputExists, KlioFilterForce,
      KlioTagMessageVersion, KlioV1CheckRecipients, KlioCheckRecipients,
      KlioUpdateAuditLog, flattenWithOpt, fullCfg, has_multi_data_inputs,
      has_multi_data_outputs, has_event_inputs, has_multi_event_inputs,
      audited]

/-- Witness for `existing_output_force_reprocessed` at a concrete
element with existing output under a force run. -/
theorem existing_output_force_reprocessed_witness :
    (⟨6, MsgVersion.v2, true, false, true, true, []⟩ :
        KlioMessage).intendedRecipient = true ∧
    (⟨6, MsgVersion.v2, true, false, true, true, []⟩ :
        KlioMessage).ping = false ∧
    (⟨6, MsgVersion.v2, true, false, true, true, []⟩ :
        KlioMessage).outputExists = true ∧
    (⟨6, MsgVersion.v2, true, false, true, true, []⟩ :
        KlioMessage).inputExists = true ∧
    setup_pipeline
        (fullCfg true [⟨6, MsgVersion.v2, true, false, true, true, []⟩])
        identity_run_callable [] =
      Except.ok ⟨ToProcess.single
          [audited "test-job" ⟨6, MsgVersion.v2, true, false, true, true, []⟩],
        identity_run_callable (ToProcess.single
          [audited "test-job" ⟨6, MsgVersion.v2, true, false, true, true, []⟩]),
        (identity_run_callable (ToProcess.single
          [audited "test-job"
            ⟨6, MsgVersion.v2, true, false, true, true, []⟩])).map
          KlioMessage.msgId,
        []⟩ :=
  ⟨rfl, rfl, rfl, rfl,
   existing_output_force_reprocessed identity_run_callable
     ⟨6, MsgVersion.v2, true, false, true, true, []⟩ rfl rfl rfl rfl⟩

/-- C5, amended: in the fully wired `DirectGKERunner` topology, an
element failing the input-existence check is dropped — it never reaches
the business transform (which receives zero elements) nor the sink —
and an acknowledgment of its original input message is issued exactly
once, on an independent sibling branch of the same `not_found` stream
as the drop (both the ack stage and the drop stage consume the
input-existence gate's output directly, and neither is ordered relative
to the other), rather than strictly before the drop completes. -/
theorem missing_input_dropped_acked_sibling
    (f : ToProcess → List KlioMessage)
    (hf : f (ToProcess.single []) = [])
    (force : Bool) (e : KlioMessage)
    (hir : e.intendedRecipient = true) (hp : e.ping = false)
    (hoe : e.outputExists = false) (hie : e.inputExists = false) :
    setup_pipeline (fullCfg force [e]) f [] =
      Except.ok ⟨ToProcess.single [], [], [e.msgId],
        [audited "test-job" e]⟩ ∧
    (∃ g, setup_pipeline_g (fullCfg force []) = Except.ok g ∧
      findNode g "Input Exists Filter" = some 15 ∧
      findNode g "Ack Input Message from No Data Input Found" = some 16 ∧
      findNode g "Drop Not Found Data" = some 17 ∧
      parentsOf g 16 = [15] ∧
      parentsOf g 17 = [15] ∧
      isAncestor g 16 17 = false ∧
      isAncestor g 17 16 = false) := by
  constructor
  · obtain ⟨id, v, ir, p, ie, oe, log⟩ := e
    cases force <;> cases v <;> cases ir <;> cases p <;> cases ie <;>
        cases oe <;>
      simp_all [setup_pipeline, generate_pcoll,
        filter_intended_recipients, update_audit_log,
        setup_data_io_filters, KlioFilterPing, KlioGcsCheckOutputExists,
        KlioGcsCheckInputExists, KlioFilterForce, KlioTagMessageVersion,
        KlioV1CheckRecipients, KlioCheckRecipients, KlioUpdateAuditLog,
        flattenWithOpt, fullCfg, has_multi_data_inputs,
        has_multi_data_outputs, has_event_inputs, has_multi_event_inputs,
        audited]
  · cases force <;> exact ⟨_, rfl, rfl, rfl, rfl, rfl, rfl, rfl, rfl⟩

/-- Witness for `missing_input_dropped_acked_sibling` at a concrete
element whose required input data is absent. -/
theorem missing_input_dropped_acked_sibling_witness :
    identity_run_callable (ToProcess.single []) = [] ∧
    (⟨9, MsgVersion.v1, true, false, false, false, []⟩ :
        KlioMessage).intendedRecipient = true ∧
    (⟨9, MsgVersion.v1, true, false, false, false, []⟩ :
        KlioMessage).ping = false ∧
    (⟨9, MsgVersion.v1, true, false, false, false, []⟩ :
        KlioMessage).outputExists = false ∧
    (⟨9, MsgVersion.v1, true, false, false, false, []⟩ :
        KlioMessage).inputExists = false ∧
    (setup_pipeline
        (fullCfg false [⟨9, MsgVersion.v1, true, false, false, false, []⟩])
        identity_run_callable [] =
      Except.ok ⟨ToProcess.single [], [], [9],
        [audited "test-job"
          ⟨9, MsgVersion.v1, true, false, false, false, []⟩]⟩ ∧
    (∃ g, setup_pipeline_g (fullCfg false []) = Except.ok g ∧
      findNode g "Input Exists Filter" = some 15 ∧
      findNode g "Ack Input Message from No Data Input Found" = some 16 ∧
      findNode g "Drop Not Found Data" = some 17 ∧
      parentsOf g 16 = [15] ∧
      parentsOf g 17 = [15] ∧
      isAncestor g 16 17 = false ∧
      isAncestor g 17 16 = false)) :=
  ⟨rfl, rfl, rfl, rfl, rfl,
   missing_input_dropped_acked_sibling identity_run_callable rfl false
     ⟨9, MsgVersion.v1, true, false, false, false, []⟩ rfl rfl rfl rfl⟩

/-- C6: an element dropped by the recipient filter (not addressed to
this job) is dropped exactly as it arrived — no audit record is
appended to it — and the recipient filter's to-process output is empty,
so the element never reaches the audit-log appender, the
output-existence gate or the input-existence gate; at the pipeline
level it is acknowledged once, dropped unmodified, and never appears at
the business transform or the sink. -/
theorem recipient_dropped_no_audit_no_gates
    (f : ToProcess → List KlioMessage)
    (hf : f (ToProcess.single []) = [])
    (force : Bool) (e : KlioMessage)
    (hir : e.intendedRecipient = false) :
    filter_intended_recipients (fullCfg force [e]) [e] =
      ⟨[], [e.msgId], [e]⟩ ∧
    setup_pipeline (fullCfg force [e]) f [] =
      Except.ok ⟨ToProcess.single [], [], [e.msgId], [e]⟩ := by
  obtain ⟨id, v, ir, p, ie, oe, log⟩ := e
  cases force <;> cases v <;> cases ir <;> cases p <;> cases ie <;>
      cases oe <;>
    constructor <;>
    simp_all [setup_pipeline, generate_pcoll, filter_intended_recipients,
      update_audit_log, setup_data_io_filters, KlioFilterPing,
      KlioGcsCheckOutputExists, KlioGcsCheckInputExists, KlioFilterForce,
      KlioTagMessageVersion, KlioV1CheckRecipients, KlioCheckRecipients,
      KlioUpdateAuditLog, flattenWithOpt, fullCfg, has_multi_data_inputs,
      has_multi_data_outputs, has_event_inputs, has_multi_event_inputs]

/-- Witness for `recipient_dropped_no_audit_no_gates` at a concrete
element not addressed to this job. -/
theorem recipient_dropped_no_audit_no_gates_witness :
    identity_run_callable (ToProcess.single []) = [] ∧
    (⟨4, MsgVersion.v2, false, false, true, true, ["x"]⟩ :
        KlioMessage).intendedRecipient = false ∧
    (filter_intended_recipients
        (fullCfg true [⟨4, MsgVersion.v2, false, false, true, true, ["x"]⟩])
        [⟨4, MsgVersion.v2, false, false, true, true, ["x"]⟩] =
      ⟨[], [4], [⟨4, MsgVersion.v2, false, false, true, true, ["x"]⟩]⟩ ∧
    setup_pipeline
        (fullCfg true [⟨4, MsgVersion.v2, false, false, true, true, ["x"]⟩])
        identity_run_callable [] =
      Except.ok ⟨ToProcess.single [], [], [4],
        [⟨4, MsgVersion.v2, false, false, true, true, ["x"]⟩]⟩) :=
  ⟨rfl, rfl,
   recipient_dropped_no_audit_no_gates identity_run_callable rfl true
     ⟨4, MsgVersion.v2, false, false, true, true, ["x"]⟩ rfl⟩

/-- Entries of a Python-dict insertion are either old entries or carry
the inserted value. -/
theorem mem_dictInsert :
    ∀ (d : List (String × EventInputConf)) (k : String) (v : EventInputConf)
      (p : String × EventInputConf),
      p ∈ dictInsert k v d → p ∈ d ∨ p.2 = v
  | [], _, v, p, h => by
      simp [dictInsert] at h
      exact Or.inr (by simp [h])
  | (k', v') :: rest, k, v, p, h => by
      simp only [dictInsert] at h
      by_cases hk : (k' == k) = true
      · rw [if_pos hk] at h
        rcases List.mem_cons.mp h with h1 | h1
        · exact Or.inr (by simp [h1])
        · exact Or.inl (List.mem_cons_of_mem _ h1)
      · rw [if_neg hk] at h
        rcases List.mem_cons.mp h with h1 | h1
        · exact Or.inl (by simp [h1])
        · rcases mem_dictInsert rest k v p h1 with h2 | h2
          · exact Or.inl (List.mem_cons_of_mem _ h2)
          · exact Or.inr h2

/-- Dict insertion never yields an empty dict. -/
theorem dictInsert_ne_nil (k : String) (v : EventInputConf) :
    ∀ d, dictInsert k v d ≠ []
  | [] => by simp [dictInsert]
  | (k', v') :: rest => by
      simp only [dictInsert]
      split <;> simp

/-- Every value in the folded input dict is an old value or one of the
folded-in configurations. -/
theorem values_foldl_dictInsert :
    ∀ (l : List (Nat × EventInputConf))
      (d : List (String × EventInputConf)) (p : String × EventInputConf),
      p ∈ l.foldl
        (fun input_dict q => dictInsert (q.2.name ++ toString q.1) q.2
          input_dict) d →
      p ∈ d ∨ p.2 ∈ l.map Prod.snd
  | [], _, _, h => Or.inl h
  | x :: xs, d, p, h => by
      rcases values_foldl_dictInsert xs _ p h with h1 | h1
      · rcases mem_dictInsert _ _ _ _ h1 with h2 | h2
        · exact Or.inl h2
        · exact Or.inr (by simp [h2])
      · exact Or.inr (by simp [h1])

/-- Folding dict insertions over a nonempty list (or into a nonempty
dict) yields a nonempty dict. -/
theorem foldl_dictInsert_ne_nil :
    ∀ (l : List (Nat × EventInputConf))
      (d : List (String × EventInputConf)), (d ≠ [] ∨ l ≠ []) →
      l.foldl
        (fun input_dict q => dictInsert (q.2.name ++ toString q.1) q.2
          input_dict) d ≠ []
  | [], d, h => by
      rcases h with h | h
      · exact h
      · simp at h
  | x :: xs, d, _ =>
      foldl_dictInsert_ne_nil xs _ (Or.inl (dictInsert_ne_nil _ _ _))

/-- The payload of an enumerated entry belongs to the enumerated list. -/
theorem snd_mem_of_mem_enumFrom {α : Type} :
    ∀ {n : Nat} (l : List α) (x : Nat × α), x ∈ List.enumFrom n l →
      x.2 ∈ l
  | _, [], _, h => by simp at h
  | n, a :: as, x, h => by
      simp only [List.enumFrom] at h
      rcases List.mem_cons.mp h with h1 | h1
      · simp [h1]
      · exact List.mem_cons_of_mem _ (snd_mem_of_mem_enumFrom as x h1)

/-- Every configuration in the generated input dict is one of the job's
declared event inputs. -/
theorem mem_generate_input_conf_names (cfg : KlioConfig)
    (p : String × EventInputConf)
    (h : p ∈ generate_input_conf_names cfg) : p.2 ∈ cfg.eventInputs := by
  rcases values_foldl_dictInsert _ _ _ h with h1 | h1
  · simp at h1
  · obtain ⟨x, hx, hx2⟩ := List.mem_map.mp h1
    exact hx2 ▸ snd_mem_of_mem_enumFrom _ x hx

/-- A job with event inputs generates a nonempty input dict. -/
theorem generate_input_conf_names_ne_nil (cfg : KlioConfig)
    (h : cfg.eventInputs ≠ []) : generate_input_conf_names cfg ≠ [] := by
  refine foldl_dictInsert_ne_nil _ _ (Or.inr ?_)
  cases he : cfg.eventInputs with
  | nil => exact absurd he h
  | cons a as => simp [List.enum, he, List.enumFrom]

/-- Multiple data inputs or outputs abort `_setup_data_io_filters`
immediately with the fatal configuration error. -/
theorem setup_data_io_filters_multi_error (cfg : KlioConfig)
    (l : List KlioMessage)
    (h : has_multi_data_inputs cfg = true ∨
      has_multi_data_outputs cfg = true) :
    setup_data_io_filters cfg l = Except.error multiDataErrorMsg := by
  unfold setup_data_io_filters
  rcases h with h | h <;> simp [h]

/-- With no data input and a single data output whose existence check is
enabled, `_setup_data_io_filters` fails: the pass-through merge is built
from a pair whose first branch is the absent (`None`) ping
pass-through. -/
theorem setup_data_io_filters_flatten_none (cfg : KlioConfig)
    (l : List KlioMessage) (d : DataConf)
    (hin : cfg.dataInputs = []) (hout : cfg.dataOutputs = [d])
    (hchk : d.skip_klio_existence_check = false) :
    setup_data_io_filters cfg l = Except.error flattenNoneErrorMsg := by
  unfold setup_data_io_filters
  simp [has_multi_data_inputs, has_multi_data_outputs, hin, hout, hchk,
    flattenWithOpt]

/-- A data-io assembly error propagates out of `_generate_pcoll` for any
event input that is actually read. -/
theorem generate_pcoll_dio_error (cfg : KlioConfig) (ic : EventInputConf)
    (pipeline : List KlioMessage) (m : String)
    (hskip : ic.skip_klio_read = false)
    (hdio : ∀ l, setup_data_io_filters cfg l = Except.error m) :
    generate_pcoll cfg ic pipeline = Except.error m := by
  simp [generate_pcoll, hskip, hdio]

/-- A data-io assembly error propagates out of the multi-input loop as
soon as its first read input is wired. -/
theorem pcolls_per_input_dio_error (cfg : KlioConfig)
    (pipeline : List KlioMessage) (m : String)
    (hdio : ∀ l, setup_data_io_filters cfg l = Except.error m) :
    ∀ entries, entries ≠ [] →
      (∀ p ∈ entries, (p : String × EventInputConf).2.skip_klio_read
        = false) →
      pcolls_per_input cfg pipeline entries = Except.error m
  | [], hne, _ => absurd rfl hne
  | (name, conf) :: rest, _, hskip => by
      have h1 : generate_pcoll cfg conf pipeline = Except.error m :=
        generate_pcoll_dio_error cfg conf pipeline m
          (hskip (name, conf) (List.mem_cons_self _ _)) hdio
      simp [pcolls_per_input, h1]

/-- A data-io assembly error aborts `_setup_pipeline` whenever the job
declares event inputs and all of them are actually read. -/
theorem setup_pipeline_dio_error (cfg : KlioConfig)
    (f : ToProcess → List KlioMessage) (pipeline : List KlioMessage)
    (m : String)
    (hdio : ∀ l, setup_data_io_filters cfg l = Except.error m)
    (hne : cfg.eventInputs ≠ [])
    (hskip : ∀ ic ∈ cfg.eventInputs, ic.skip_klio_read = false) :
    setup_pipeline cfg f pipeline = Except.error m := by
  unfold setup_pipeline
  cases hev : cfg.eventInputs with
  | nil => exact absurd hev hne
  | cons a rest =>
    cases rest with
    | nil =>
        have hgen : generate_pcoll cfg a pipeline = Except.error m :=
          generate_pcoll_dio_error cfg a pipeline m
            (hskip a (by rw [hev]; exact List.mem_cons_self _ _)) hdio
        simp [has_event_inputs, has_multi_event_inputs, hev, hgen]
    | cons b rest2 =>
        have hpc : generate_pcoll_per_input cfg pipeline
            = Except.error m := by
          unfold generate_pcoll_per_input
          refine pcolls_per_input_dio_error cfg pipeline m hdio _
            (generate_input_conf_names_ne_nil cfg (by rw [hev]; simp))
            ?_
          intro p hp
          exact hskip p.2 (mem_generate_input_conf_names cfg p hp)
        simp [has_event_inputs, has_multi_event_inputs, hev, hpc]

/-- C8, amended: for every job configuration declaring more than one
data input or more than one data output AND declaring at least one
event input, all of whose event inputs are actually read (skip-read
unset), assembly raises the fatal multiple-data-inputs/outputs
configuration error before any element processing — the pipeline
carries no result, no sink write and no acknowledgment. -/
theorem multi_data_error_when_inputs_read (cfg : KlioConfig)
    (f : ToProcess → List KlioMessage) (pipeline : List KlioMessage)
    (hmulti : has_multi_data_inputs cfg = true ∨
      has_multi_data_outputs cfg = true)
    (hne : cfg.eventInputs ≠ [])
    (hskip : ∀ ic ∈ cfg.eventInputs, ic.skip_klio_read = false) :
    setup_pipeline cfg f pipeline = Except.error multiDataErrorMsg :=
  setup_pipeline_dio_error cfg f pipeline multiDataErrorMsg
    (fun l => setup_data_io_filters_multi_error cfg l hmulti) hne hskip

/-- Witness for `multi_data_error_when_inputs_read` at a concrete
configuration with two data outputs and one read event input. -/
theorem multi_data_error_when_inputs_read_witness :
    (has_multi_data_inputs
        { runner := "DirectGKERunner", jobName := "test-job",
          force := false, eventInputs := [⟨"pubsub", false, []⟩],
          eventOutputs := [], dataInputs := [],
          dataOutputs := [⟨false⟩, ⟨false⟩] } = true ∨
      has_multi_data_outputs
        { runner := "DirectGKERunner", jobName := "test-job",
          force := false, eventInputs := [⟨"pubsub", false, []⟩],
          eventOutputs := [], dataInputs := [],
          dataOutputs := [⟨false⟩, ⟨false⟩] } = true) ∧
    ({ runner := "DirectGKERunner", jobName := "test-job",
       force := false, eventInputs := [⟨"pubsub", false, []⟩],
       eventOutputs := [], dataInputs := [],
       dataOutputs := [⟨false⟩, ⟨false⟩] } :
        KlioConfig).eventInputs ≠ [] ∧
    (∀ ic ∈ ([⟨"pubsub", false, []⟩] : List EventInputConf),
      ic.skip_klio_read = false) ∧
    setup_pipeline
      { runner := "DirectGKERunner", jobName := "test-job",
        force := false, eventInputs := [⟨"pubsub", false, []⟩],
        eventOutputs := [], dataInputs := [],
        dataOutputs := [⟨false⟩, ⟨false⟩] }
      identity_run_callable [] = Except.error multiDataErrorMsg :=
  ⟨Or.inr rfl, by decide, by decide,
   multi_data_error_when_inputs_read _ identity_run_callable []
     (Or.inr rfl) (by decide) (by decide)⟩

/-- C10, amended: for every job configuration that enables the sink's
output-existence check, declares no data input, AND declares at least
one event input, all of whose event inputs are actually read (skip-read
unset), topology assembly does not produce a valid pipeline: the
pass-through merge is built from a pair whose first branch is the
absent (`None`) ping pass-through, so assembly fails instead of wiring
a topology. -/
theorem out_check_no_data_input_fails_assembly (cfg : KlioConfig)
    (f : ToProcess → List KlioMessage) (pipeline : List KlioMessage)
    (d : DataConf)
    (hin : cfg.dataInputs = []) (hout : cfg.dataOutputs = [d])
    (hchk : d.skip_klio_existence_check = false)
    (hne : cfg.eventInputs ≠ [])
    (hskip : ∀ ic ∈ cfg.eventInputs, ic.skip_klio_read = false) :
    setup_pipeline cfg f pipeline = Except.error flattenNoneErrorMsg :=
  setup_pipeline_dio_error cfg f pipeline flattenNoneErrorMsg
    (fun l => setup_data_io_filters_flatten_none cfg l d hin hout hchk)
    hne hskip

/-- Witness for `out_check_no_data_input_fails_assembly` at a concrete
configuration with a checked sink, no data input and one read event
input. -/
theorem out_check_no_data_input_fails_assembly_witness :
    ({ runner := "DirectGKERunner", jobName := "test-job",
       force := false, eventInputs := [⟨"pubsub", false, []⟩],
       eventOutputs := [], dataInputs := [], dataOutputs := [⟨false⟩] } :
        KlioConfig).dataInputs = [] ∧
    ({ runner := "DirectGKERunner", jobName := "test-job",
       force := false, eventInputs := [⟨"pubsub", false, []⟩],
       eventOutputs := [], dataInputs := [], dataOutputs := [⟨false⟩] } :
        KlioConfig).dataOutputs = [⟨false⟩] ∧
    (⟨false⟩ : DataConf).skip_klio_existence_check = false ∧
    ({ runner := "DirectGKERunner", jobName := "test-job",
       force := false, eventInputs := [⟨"pubsub", false, []⟩],
       eventOutputs := [], dataInputs := [], dataOutputs := [⟨false⟩] } :
        KlioConfig).eventInputs ≠ [] ∧
    (∀ ic ∈ ([⟨"pubsub", false, []⟩] : List EventInputConf),
      ic.skip_klio_read = false) ∧
    setup_pipeline
      { runner := "DirectGKERunner", jobName := "test-job",
        force := false, eventInputs := [⟨"pubsub", false, []⟩],
        eventOutputs := [], dataInputs := [], dataOutputs := [⟨false⟩] }
      identity_run_callable [] = Except.error flattenNoneErrorMsg :=
  ⟨rfl, rfl, rfl, by decide, by decide,
   out_check_no_data_input_fails_assembly _ identity_run_callable []
     ⟨false⟩ rfl rfl rfl (by decide) (by decide)⟩

/-- Counting occurrences in a flattened concatenation equals the sum of
the per-source counts: merging is lossless and duplicate-free. -/
theorem count_flatMap_eq_sum {α β : Type} [BEq β] (f : α → List β)
    (x : β) : ∀ l : List α,
      ((l.flatMap f).count x) = (l.map (fun a => (f a).count x)).sum
  | [] => rfl
  | a :: as => by
      simp [List.flatMap_cons, List.count_append,
        count_flatMap_eq_sum f x as]

/-- The multi-input loop wires each named input's chain independently —
each entry of the aggregated structure holds its source's name and
exactly that source's `to_process` stream — and the merged pass-through
is the concatenation of the per-source contributions in declaration
order. -/
theorem pcolls_per_input_spec (cfg : KlioConfig)
    (pipeline : List KlioMessage) :
    ∀ (entries : List (String × EventInputConf)) (r : MultiPCollResult),
      pcolls_per_input cfg pipeline entries = Except.ok r →
      List.Forall₂
        (fun (p : String × EventInputConf)
             (q : String × List KlioMessage) =>
          q.1 = p.1 ∧ ∃ rp, generate_pcoll cfg p.2 pipeline = Except.ok rp ∧
            q.2 = rp.to_process)
        entries r.to_process ∧
      r.to_pass_thru =
        entries.flatMap (input_pass_thru_contribution cfg pipeline)
  | [], r, h => by
      simp only [pcolls_per_input, Except.ok.injEq] at h
      subst h
      exact ⟨List.Forall₂.nil, by simp⟩
  | (name, conf) :: rest, r, h => by
      revert h
      unfold pcolls_per_input
      cases h1 : generate_pcoll cfg conf pipeline with
      | error m => intro h; simp at h
      | ok rp =>
        cases h2 : pcolls_per_input cfg pipeline rest with
        | error m => intro h; simp at h
        | ok rs =>
          intro h
          simp only [Except.ok.injEq] at h
          subst h
          obtain ⟨hf2, hpass⟩ :=
            pcolls_per_input_spec cfg pipeline rest rs h2
          refine ⟨List.Forall₂.cons ⟨rfl, rp, h1, rfl⟩ hf2, ?_⟩
          simp [List.flatMap_cons, input_pass_thru_contribution, h1, hpass]

/-- C7: when assembly succeeds for a multi-input job, the aggregated
structure pairs each generated source name (the source's name plus its
ordinal, disambiguating duplicates) with exactly that source's
independently wired to-process stream, and the merged pass-through
stream is the concatenation of the per-source pass-through
contributions: every element's multiplicity in the merge equals the sum
of its per-source multiplicities — no duplicates, no losses — a
multiset identity independent of per-source completion order (the merge
commutes at the multiset level). -/
theorem multi_input_aggregation_per_source (cfg : KlioConfig)
    (pipeline : List KlioMessage) (r : MultiPCollResult)
    (hok : generate_pcoll_per_input cfg pipeline = Except.ok r) :
    List.Forall₂
      (fun (p : String × EventInputConf)
           (q : String × List KlioMessage) =>
        q.1 = p.1 ∧ ∃ rp, generate_pcoll cfg p.2 pipeline = Except.ok rp ∧
          q.2 = rp.to_process)
      (generate_input_conf_names cfg) r.to_process ∧
    r.to_pass_thru =
      (generate_input_conf_names cfg).flatMap
        (input_pass_thru_contribution cfg pipeline) ∧
    ∀ x, r.to_pass_thru.count x =
      ((generate_input_conf_names cfg).map
        (fun p => (input_pass_thru_contribution cfg pipeline p).count
          x)).sum := by
  obtain ⟨h1, h2⟩ :=
    pcolls_per_input_spec cfg pipeline (generate_input_conf_names cfg) r
      hok
  exact ⟨h1, h2, fun x => by rw [h2]; exact count_flatMap_eq_sum _ x _⟩

/-- Witness for `multi_input_aggregation_per_source` at the concrete
two-source configuration. -/
theorem multi_input_aggregation_per_source_witness :
    ∃ r, generate_pcoll_per_input cfgTwoInputs [] = Except.ok r ∧
    (List.Forall₂
      (fun (p : String × EventInputConf)
           (q : String × List KlioMessage) =>
        q.1 = p.1 ∧ ∃ rp, generate_pcoll cfgTwoInputs p.2 [] =
          Except.ok rp ∧ q.2 = rp.to_process)
      (generate_input_conf_names cfgTwoInputs) r.to_process ∧
    r.to_pass_thru =
      (generate_input_conf_names cfgTwoInputs).flatMap
        (input_pass_thru_contribution cfgTwoInputs []) ∧
    ∀ x, r.to_pass_thru.count x =
      ((generate_input_conf_names cfgTwoInputs).map
        (fun p => (input_pass_thru_contribution cfgTwoInputs [] p).count
          x)).sum) :=
  ⟨_, rfl, multi_input_aggregation_per_source cfgTwoInputs [] _ rfl⟩
